import Mathlib

/-!
# Klinker frame receiver (`Plugin/Receiver.h`)

A shallow embedding of `klinker::Receiver` and proofs about its frame queue,
timecode packing, frame size computation, format change handling and start-up.

Conventions of the embedding.

* Target: the plugin is a Windows COM component, so `int` and `long` are
  32-bit signed; `std::size_t` is 32 or 64 bits wide, as the build is x86 or
  x64 (`Settings.sizeWidth`).  Signed values are `Int`, unsigned values are
  `Nat`; unsigned arithmetic is reduced modulo `SIZE_MAX + 1` (or `2 ^ 32` for
  `std::uint32_t`).
* A member function of the class becomes a function on `Receiver` that returns
  `Option`: `none` means that the call does not return normally, that is, it
  runs into undefined behaviour (null dereference, signed overflow, reading
  past a buffer, unlocking a mutex that is not locked), trips an `assert`
  that is compiled in, or blocks on `mutex_` because the mutex is held.
* Calls made on driver objects are appended to the ghost field `calls`.
-/

namespace klinker

/-! ## Machine integers -/

/-- Largest value of `int` (and of `long`) on the target. -/
def INT_MAX : Int := 2147483647

/-- Smallest value of `int` (and of `long`) on the target. -/
def INT_MIN : Int := -2147483648

/-- Number of values of `std::uint32_t`. -/
def UINT32_MOD : Nat := 4294967296

/-! ## Settings and driver objects that the header takes from elsewhere -/

/-- Width of `std::size_t`: 32 bits on an x86 build, 64 bits on an x64 build. -/
inductive SizeWidth where
  | bits32
  | bits64
deriving DecidableEq, Repr

/-- What is fixed outside `Receiver.h`: whether `assert` is compiled out
(`NDEBUG`), the width of `std::size_t` on the build target, and the bit mask
`bmdTimecodeIsDropFrame` of the capture SDK. -/
structure Settings where
  ndebug : Bool
  sizeWidth : SizeWidth
  bmdTimecodeIsDropFrame : Nat
deriving DecidableEq, Repr

/-- Number of values of `std::size_t` on the build target (`SIZE_MAX + 1`). -/
def SIZE_MOD (c : Settings) : Nat :=
  match c.sizeWidth with
  | SizeWidth.bits32 => 4294967296
  | SizeWidth.bits64 => 18446744073709551616

/-- Conversion of a signed integer to `std::size_t` (reduction modulo
`SIZE_MAX + 1`). -/
def toSizeT (c : Settings) (x : Int) : Nat := (x % (SIZE_MOD c : Int)).toNat

/-- The values of `BMDPixelFormat`: the two that `CalculateFrameDataSize`
switches on, and every other code. -/
inductive BMDPixelFormat where
  | bmdFormat8BitYUV
  | bmdFormat8BitBGRA
  | other (code : Nat)
deriving DecidableEq, Repr

/-- The values of `BMDFieldDominance`: progressive, and every other code. -/
inductive BMDFieldDominance where
  | bmdProgressiveFrame
  | other (code : Nat)
deriving DecidableEq, Repr

/-- An `IDeckLinkDisplayMode` object, by what its getters return. -/
structure IDeckLinkDisplayMode where
  /-- Value of `GetWidth()` (a `long`). -/
  width : Int
  /-- Value of `GetHeight()` (a `long`). -/
  height : Int
  /-- Value of `GetFieldDominance()`. -/
  fieldDominance : BMDFieldDominance
  /-- Value of `GetDisplayMode()`. -/
  displayMode : Nat
deriving DecidableEq, Repr

/-- An `IDeckLinkTimecode` object, by what its getters return. -/
structure IDeckLinkTimecode where
  /-- Value of `GetBCD()` (a 32-bit unsigned value). -/
  bcd : Nat
  /-- Value of `GetFlags()` (a 32-bit unsigned value). -/
  flags : Nat
deriving DecidableEq, Repr

/-- An `IDeckLinkVideoInputFrame` object, by what its getters return. -/
structure IDeckLinkVideoInputFrame where
  /-- Value of `GetRowBytes()` (a `long`). -/
  rowBytes : Int
  /-- Value of `GetHeight()` (a `long`). -/
  height : Int
  /-- The driver's buffer that `GetBytes` points to. -/
  bytes : List UInt8
  /-- The timecode `GetTimecode(bmdTimecodeRP188VITC1, _)` yields with `S_OK`, if any. -/
  vitc1 : Option IDeckLinkTimecode
  /-- The timecode `GetTimecode(bmdTimecodeRP188VITC2, _)` yields with `S_OK`, if any. -/
  vitc2 : Option IDeckLinkTimecode
deriving DecidableEq, Repr

/-- An `IDeckLinkInput` interface of a device. -/
structure IDeckLinkInput where
  /-- The modes that `GetDisplayModeIterator` enumerates, in order. -/
  displayModes : List IDeckLinkDisplayMode
  /-- Whether `EnableVideoInput` returns `S_OK` (the device is not in use). -/
  enableOK : Bool
deriving DecidableEq, Repr

/-- An `IDeckLink` device: `QueryInterface(IID_IDeckLinkInput, _)` succeeds
exactly when `input` is present. -/
structure IDeckLink where
  input : Option IDeckLinkInput
deriving DecidableEq, Repr

/-- The driver as seen by `InitializeInput`: whether `CoCreateInstance` gives a
device iterator, and the devices that it enumerates, in order. -/
structure Driver where
  installed : Bool
  devices : List IDeckLink
deriving DecidableEq, Repr

/-- Calls issued on driver objects, recorded in call order. -/
inductive DriverCall where
  | iteratorRelease
  | deviceRelease
  | dmIteratorRelease
  | displayModeRelease (mode : IDeckLinkDisplayMode)
  | displayModeAddRef (mode : IDeckLinkDisplayMode)
  | SetCallback (self : Bool)
  | EnableVideoInput (mode : Nat) (pixelFormat : BMDPixelFormat)
  | DisableVideoInput
  | StartStreams
  | StopStreams
  | PauseStreams
  | FlushStreams
  | inputRelease
deriving DecidableEq, Repr

/-! ## The receiver -/

/-- `Receiver::FrameData`: a timecode and an owned copy of the image bytes. -/
structure FrameData where
  timecode_ : Nat
  image_ : List UInt8
deriving DecidableEq, Repr

/-- The data members of `Receiver` (defaults are the member initialisers).
`frameQueue_` is the `std::queue`, front first; `mutex_` is `true` while the
mutex is held; `calls` is the ghost record of driver calls. -/
structure Receiver where
  refCount_ : Nat := 1
  error_ : String := ""
  input_ : Option IDeckLinkInput := none
  displayMode_ : Option IDeckLinkDisplayMode := none
  pixelFormat_ : BMDPixelFormat := BMDPixelFormat.bmdFormat8BitYUV
  frameQueue_ : List FrameData := []
  mutex_ : Bool := false
  dropCount_ : Int := 0
  calls : List DriverCall := []
deriving DecidableEq, Repr

/-- `static const std::size_t maxQueueLength_ = 8;` -/
def maxQueueLength_ : Nat := 8

/-! ### Accessor methods -/

/-- `Receiver::GetFrameDimensions` (dereferences `displayMode_`). -/
def GetFrameDimensions (s : Receiver) : Option (Int × Int) :=
  match s.displayMode_ with
  | none => none
  | some m => some (m.width, m.height)

/-- `Receiver::IsProgressive` (dereferences `displayMode_`). -/
def IsProgressive (s : Receiver) : Option Bool :=
  match s.displayMode_ with
  | none => none
  | some m => some (decide (m.fieldDominance = BMDFieldDominance.bmdProgressiveFrame))

/-- The `switch (pixelFormat_)` of `CalculateFrameDataSize`: `bpp` starts at 0
and there is no `default` case. -/
def bitsPerPixel (p : BMDPixelFormat) : Nat :=
  match p with
  | BMDPixelFormat.bmdFormat8BitYUV => 16
  | BMDPixelFormat.bmdFormat8BitBGRA => 32
  | BMDPixelFormat.other _ => 0

/-- `Receiver::CalculateFrameDataSize`: the product is formed in `std::size_t`,
both `long` operands being converted to it, left to right. -/
def CalculateFrameDataSize (c : Settings) (s : Receiver) : Option Nat :=
  match s.displayMode_ with
  | none => none
  | some m =>
    let bpp := bitsPerPixel s.pixelFormat_
    some ((((bpp * toSizeT c m.width) % SIZE_MOD c) * toSizeT c m.height) % SIZE_MOD c / 8)

/-- `Receiver::CountDroppedFrames`. -/
def CountDroppedFrames (s : Receiver) : Int := s.dropCount_

/-- `Receiver::GetFrameTimecode`, in `std::uint32_t` arithmetic. -/
def GetFrameTimecode (c : Settings) (frame : IDeckLinkVideoInputFrame) : Nat :=
  let pack (bcdTime : Nat) (timecode : IDeckLinkTimecode) : Nat :=
    let bcdTime := (bcdTime ||| timecode.bcd) % UINT32_MOD
    if timecode.flags &&& c.bmdTimecodeIsDropFrame ≠ 0 then (bcdTime ||| 0x40) % UINT32_MOD
    else bcdTime
  match frame.vitc1 with
  | some timecode => pack 0 timecode
  | none =>
    match frame.vitc2 with
    | some timecode => pack 0x80 timecode
    | none => 0xffffffff

/-! ### Frame queue methods -/

/-- `Receiver::CountQueuedFrames` (reads the size without taking the mutex). -/
def CountQueuedFrames (s : Receiver) : Nat := s.frameQueue_.length

/-- `Receiver::DequeueFrame`: under a `lock_guard`, pop the front if there is one. -/
def DequeueFrame (s : Receiver) : Option Receiver :=
  if s.mutex_ then none
  else
    match s.frameQueue_ with
    | [] => some s
    | _ :: rest => some { s with frameQueue_ := rest }

/-- `Receiver::LockOldestFrameData`: the returned pointer is modelled by the
bytes it points to (`none` inside is `nullptr`); the mutex stays locked only on
the non-empty branch. -/
def LockOldestFrameData (s : Receiver) : Option (Option (List UInt8) × Receiver) :=
  if s.mutex_ then none
  else
    match s.frameQueue_ with
    | front :: _ => some (some front.image_, { s with mutex_ := true })
    | [] => some (none, s)

/-- `Receiver::UnlockOldestFrameData`: `mutex_.unlock()`. -/
def UnlockOldestFrameData (s : Receiver) : Option Receiver :=
  if s.mutex_ then some { s with mutex_ := false } else none

/-- `Receiver::GetOldestTimecode`: under a `lock_guard`. -/
def GetOldestTimecode (s : Receiver) : Option (Nat × Receiver) :=
  if s.mutex_ then none
  else
    match s.frameQueue_ with
    | front :: _ => some (front.timecode_, s)
    | [] => some (0xffffffff, s)

/-! ### `IDeckLinkInputCallback` implementation -/

/-- The loop `while (!frameQueue_.empty()) frameQueue_.pop();`. -/
def flushQueue : List FrameData → List FrameData
  | [] => []
  | _ :: rest => flushQueue rest

/-- `Receiver::VideoInputFormatChanged` (the result is always `S_OK`). -/
def VideoInputFormatChanged (_events : Nat) (mode : Option IDeckLinkDisplayMode)
    (_flags : Nat) (s : Receiver) : Option Receiver :=
  if s.mutex_ then none
  else
    match s.displayMode_, mode with
    | some old, some m =>
      let s1 : Receiver :=
        { s with
          displayMode_ := some m
          frameQueue_ := flushQueue s.frameQueue_
          calls := s.calls ++ [DriverCall.displayModeRelease old, DriverCall.displayModeAddRef m] }
      match s1.input_ with
      | none => none
      | some _ =>
        some { s1 with
          calls := s1.calls ++
            [DriverCall.PauseStreams,
             DriverCall.EnableVideoInput m.displayMode s1.pixelFormat_,
             DriverCall.FlushStreams,
             DriverCall.StartStreams] }
    | _, _ => none

/-- `Receiver::VideoInputFrameArrived` (the result is always `S_OK`; the audio
packet is not looked at). -/
def VideoInputFrameArrived (c : Settings) (videoFrame : Option IDeckLinkVideoInputFrame)
    (s : Receiver) : Option Receiver :=
  match videoFrame with
  | none => some s
  | some frame =>
    if maxQueueLength_ ≤ s.frameQueue_.length then
      -- `dropCount_++` on an `int`
      if s.dropCount_ + 1 ≤ INT_MAX then some { s with dropCount_ := s.dropCount_ + 1 } else none
    else
      -- `GetRowBytes() * GetHeight()` is a product of two `long`s
      let size := frame.rowBytes * frame.height
      if size < INT_MIN ∨ INT_MAX < size then none
      -- `assert(size == CalculateFrameDataSize())`
      else if !c.ndebug && !(decide (CalculateFrameDataSize c s = some (toSizeT c size))) then none
      -- `image_(source, source + size)` reads `size` bytes of the driver's buffer
      else if size < 0 ∨ (frame.bytes.length : Int) < size then none
      else
        let timecode := GetFrameTimecode c frame
        if s.mutex_ then none
        else
          some { s with
            frameQueue_ := s.frameQueue_ ++ [FrameData.mk timecode (frame.bytes.take size.toNat)] }

/-! ### Start and stop -/

/-- The device loop of `InitializeInput`,
`for (auto i = 0; i <= deviceIndex; i++)`, run on the devices the iterator has
left: the result is whether every `Next` returned `S_OK`, the final `device`
pointer and the calls made.  An exhausted iterator stores null in `device`. -/
def deviceLoop (deviceIndex : Int) :
    List IDeckLink → Int → Option IDeckLink → List DriverCall →
      Option (Bool × Option IDeckLink × List DriverCall)
  | [], i, device, calls =>
    if i ≤ deviceIndex then
      some (false, none, if device.isSome then calls ++ [DriverCall.deviceRelease] else calls)
    else some (true, device, calls)
  | d :: rest, i, device, calls =>
    if i ≤ deviceIndex then
      -- `i++` on an `int`
      if i + 1 ≤ INT_MAX then
        deviceLoop deviceIndex rest (i + 1) (some d)
          (if device.isSome then calls ++ [DriverCall.deviceRelease] else calls)
      else none
    else some (true, device, calls)

/-- The display mode loop of `InitializeInput`,
`for (auto i = 0; i <= formatIndex; i++)`, run on the modes the iterator has
left.  An exhausted iterator stores null in `displayMode_`. -/
def displayModeLoop (formatIndex : Int) :
    List IDeckLinkDisplayMode → Int → Option IDeckLinkDisplayMode → List DriverCall →
      Option (Bool × Option IDeckLinkDisplayMode × List DriverCall)
  | [], i, displayMode, calls =>
    if i ≤ formatIndex then
      some (false, none,
        match displayMode with
        | some m => calls ++ [DriverCall.displayModeRelease m]
        | none => calls)
    else some (true, displayMode, calls)
  | m :: rest, i, displayMode, calls =>
    if i ≤ formatIndex then
      -- `i++` on an `int`
      if i + 1 ≤ INT_MAX then
        displayModeLoop formatIndex rest (i + 1) (some m)
          (match displayMode with
           | some old => calls ++ [DriverCall.displayModeRelease old]
           | none => calls)
      else none
    else some (true, displayMode, calls)

/-- `Receiver::InitializeInput`: the Boolean result and the receiver afterwards.
`GetDisplayModeIterator` and `SetCallback` return `S_OK`, as the code asserts. -/
def InitializeInput (d : Driver) (deviceIndex formatIndex : Int) (pixFormat : BMDPixelFormat)
    (s : Receiver) : Option (Bool × Receiver) :=
  let s : Receiver := { s with pixelFormat_ := pixFormat }
  if !d.installed then
    some (false, { s with error_ := "DeckLink driver is not found." })
  else
    match deviceLoop deviceIndex d.devices 0 none s.calls with
    | none => none
    | some (false, _, calls) =>
      some (false,
        { s with error_ := "Invalid device index."
                 calls := calls ++ [DriverCall.iteratorRelease] })
    -- `device->QueryInterface` on a null `device`
    | some (true, none, _) => none
    | some (true, some device, calls) =>
      let s : Receiver :=
        { s with input_ := device.input
                 calls := calls ++ [DriverCall.iteratorRelease, DriverCall.deviceRelease] }
      match s.input_ with
      | none => some (false, { s with error_ := "Device has no input." })
      | some input =>
        match displayModeLoop formatIndex input.displayModes 0 s.displayMode_ s.calls with
        | none => none
        | some (false, displayMode, calls) =>
          some (false,
            { s with displayMode_ := displayMode
                     error_ := "Invalid format index."
                     calls := calls ++ [DriverCall.deviceRelease, DriverCall.dmIteratorRelease] })
        | some (true, displayMode, calls) =>
          let s : Receiver :=
            { s with displayMode_ := displayMode
                     calls := calls ++ [DriverCall.dmIteratorRelease, DriverCall.SetCallback true] }
          match s.displayMode_ with
          | none => none
          | some m =>
            let s : Receiver :=
              { s with calls := s.calls ++ [DriverCall.EnableVideoInput m.displayMode s.pixelFormat_] }
            if !input.enableOK then
              some (false, { s with error_ := "Can't open input device (possibly already used)." })
            else some (true, s)

/-- `Receiver::Start`. -/
def Start (c : Settings) (d : Driver) (deviceIndex formatIndex : Int) (pixFormat : BMDPixelFormat)
    (s : Receiver) : Option Receiver :=
  -- `assert(input_ == nullptr); assert(displayMode_ == nullptr);`
  if !c.ndebug && (s.input_.isSome || s.displayMode_.isSome) then none
  else
    match InitializeInput d deviceIndex formatIndex pixFormat s with
    | none => none
    | some (false, s) => some s
    | some (true, s) =>
      match s.input_ with
      | none => none
      | some _ => some { s with calls := s.calls ++ [DriverCall.StartStreams] }

/-- The source the decoder reads, in the specification's words: the primary
source whenever it is present, else the secondary one. -/
def chosenSource (frame : IDeckLinkVideoInputFrame) : Option IDeckLinkTimecode :=
  match frame.vitc1 with
  | some t => some t
  | none => frame.vitc2

/-- Only the secondary source is present. -/
def onlySecondary (frame : IDeckLinkVideoInputFrame) : Bool :=
  frame.vitc1.isNone && frame.vitc2.isSome

/-- The source reports the drop-frame flag. -/
def reportsDropFrame (c : Settings) (t : IDeckLinkTimecode) : Bool :=
  decide (t.flags &&& c.bmdTimecodeIsDropFrame ≠ 0)

/-- The packed timecode as the specification words it. -/
def timecodeSpec (c : Settings) (frame : IDeckLinkVideoInputFrame) : Nat :=
  match chosenSource frame with
  | none => 0xffffffff
  | some t =>
    t.bcd ||| (if onlySecondary frame then 0x80 else 0)
      ||| (if reportsDropFrame c t then 0x40 else 0)

/-! ### Runs of operations -/

/-- The queue entry that `frameQueue_.emplace(timecode, source, size)` constructs
for a frame: `FrameData(timecode, source, size)` with `size` bytes copied. -/
def emplaced (c : Settings) (frame : IDeckLinkVideoInputFrame) : FrameData :=
  FrameData.mk (GetFrameTimecode c frame)
    (frame.bytes.take (frame.rowBytes * frame.height).toNat)

/-- A frame as the driver delivers it for the receiver's current mode: the size
`GetRowBytes() * GetHeight()` is a non-negative `long`, the buffer holds that
many bytes, and, where `assert` is compiled in, the size is the one
`CalculateFrameDataSize` computes. -/
@[reducible]
def frameFits (c : Settings) (s : Receiver) (frame : IDeckLinkVideoInputFrame) : Prop :=
  0 ≤ frame.rowBytes * frame.height
  ∧ frame.rowBytes * frame.height ≤ INT_MAX
  ∧ frame.rowBytes * frame.height ≤ (frame.bytes.length : Int)
  ∧ (c.ndebug = false →
      CalculateFrameDataSize c s = some (toSizeT c (frame.rowBytes * frame.height)))

/-- Consecutive `VideoInputFrameArrived` notifications, each with a non-null
frame, with no other call in between. -/
def frameArrivals (c : Settings) : List IDeckLinkVideoInputFrame → Receiver → Option Receiver
  | [], s => some s
  | frame :: rest, s =>
    match VideoInputFrameArrived c (some frame) s with
    | none => none
    | some s1 => frameArrivals c rest s1

/-- Consecutive calls of `DequeueFrame`. -/
def dequeues : Nat → Receiver → Option Receiver
  | 0, s => some s
  | n + 1, s =>
    match DequeueFrame s with
    | none => none
    | some s1 => dequeues n s1

/-- The operations on a receiver that touch the frame queue. -/
inductive Op where
  | frameArrived (videoFrame : Option IDeckLinkVideoInputFrame)
  | dequeueFrame
  | lockOldestFrameData
  | unlockOldestFrameData
  | getOldestTimecode
  | formatChanged (events : Nat) (mode : Option IDeckLinkDisplayMode) (flags : Nat)
deriving DecidableEq, Repr

/-- The receiver after one operation, when the operation returns. -/
def step (c : Settings) (op : Op) (s : Receiver) : Option Receiver :=
  match op with
  | Op.frameArrived videoFrame => VideoInputFrameArrived c videoFrame s
  | Op.dequeueFrame => DequeueFrame s
  | Op.lockOldestFrameData => (LockOldestFrameData s).map Prod.snd
  | Op.unlockOldestFrameData => UnlockOldestFrameData s
  | Op.getOldestTimecode => (GetOldestTimecode s).map Prod.snd
  | Op.formatChanged events mode flags => VideoInputFormatChanged events mode flags s

/-- The receiver after a sequence of operations executed one at a time. -/
def run (c : Settings) : List Op → Receiver → Option Receiver
  | [], s => some s
  | op :: rest, s =>
    match step c op s with
    | none => none
    | some s1 => run c rest s1

/-- States reachable from `s0` by operations executed one at a time. -/
inductive Reachable (c : Settings) (s0 : Receiver) : Receiver → Prop where
  | start : Reachable c s0 s0
  | next (op : Op) (s s1 : Receiver) :
      Reachable c s0 s → step c op s = some s1 → Reachable c s0 s1

/-! ### Concrete instances -/

/-- An x64 build with `assert` compiled in, and the SDK's drop-frame mask. -/
def exampleSettings : Settings := Settings.mk false SizeWidth.bits64 2

/-- A 2 x 2 progressive display mode. -/
def exampleMode : IDeckLinkDisplayMode :=
  IDeckLinkDisplayMode.mk 2 2 BMDFieldDominance.bmdProgressiveFrame 1

/-- A device input that offers `exampleMode` only. -/
def exampleInput : IDeckLinkInput := IDeckLinkInput.mk [exampleMode] true

/-- A receiver as `Start` leaves it on `exampleInput`: streaming, empty queue. -/
def exampleReceiver : Receiver :=
  { input_ := some exampleInput, displayMode_ := some exampleMode,
    calls := [DriverCall.iteratorRelease, DriverCall.deviceRelease,
      DriverCall.dmIteratorRelease, DriverCall.SetCallback true,
      DriverCall.EnableVideoInput 1 BMDPixelFormat.bmdFormat8BitYUV,
      DriverCall.StartStreams] }

/-- A frame of `exampleMode` in 8-bit YUV (4 bytes per row, 2 rows) carrying
the given timecode on its primary source. -/
def exampleFrame (bcd : Nat) : IDeckLinkVideoInputFrame :=
  IDeckLinkVideoInputFrame.mk 4 2 [1, 2, 3, 4, 5, 6, 7, 8]
    (some (IDeckLinkTimecode.mk bcd 0)) none

/-- The receiver `exampleReceiver` after nine arrivals of `exampleFrame 5`:
eight frames queued, one dropped. -/
def exampleFull : Receiver :=
  { exampleReceiver with
    frameQueue_ := List.replicate 8 (emplaced exampleSettings (exampleFrame 5))
    dropCount_ := 1 }

/-- The receiver `exampleReceiver` with a full queue and the drop counter at
`INT_MAX`, as it is after `8 + 2147483647` arrivals of `exampleFrame 5`. -/
def exampleSaturated : Receiver :=
  { exampleReceiver with
    frameQueue_ := List.replicate 8 (emplaced exampleSettings (exampleFrame 5))
    dropCount_ := 2147483647 }

/-- Three frames of `exampleMode` with distinct timecodes and contents. -/
def exampleFrames : List IDeckLinkVideoInputFrame :=
  [IDeckLinkVideoInputFrame.mk 4 2 [1, 2, 3, 4, 5, 6, 7, 8]
      (some (IDeckLinkTimecode.mk 0x01 0)) none,
   IDeckLinkVideoInputFrame.mk 4 2 [11, 12, 13, 14, 15, 16, 17, 18]
      (some (IDeckLinkTimecode.mk 0x02 0)) none,
   IDeckLinkVideoInputFrame.mk 4 2 [21, 22, 23, 24, 25, 26, 27, 28]
      (some (IDeckLinkTimecode.mk 0x03 0)) none]

/-- A 1920 x 1080 progressive display mode. -/
def exampleHD : IDeckLinkDisplayMode :=
  IDeckLinkDisplayMode.mk 1920 1080 BMDFieldDominance.bmdProgressiveFrame 2

/-- A frame of `exampleMode` whose only timecode source is the secondary one,
with the drop-frame bit of `exampleSettings` set in its flags. -/
def exampleSecondaryFrame : IDeckLinkVideoInputFrame :=
  IDeckLinkVideoInputFrame.mk 4 2 [1, 2, 3, 4, 5, 6, 7, 8]
    none (some (IDeckLinkTimecode.mk 0x12 2))

/-- A driver with one device whose input is `exampleInput`. -/
def exampleDriver : Driver := Driver.mk true [IDeckLink.mk (some exampleInput)]

/-! ## Theorems -/

/-! ### Timecode -/

theorem mod_uint32_of_lt {x : Nat} (h : x < UINT32_MOD) : x % UINT32_MOD = x :=
  Nat.mod_eq_of_lt h

theorem or_lt_uint32 {x y : Nat} (hx : x < UINT32_MOD) (hy : y < UINT32_MOD) :
    x ||| y < UINT32_MOD := by
  have h : UINT32_MOD = 2 ^ 32 := by decide
  rw [h] at hx hy ⊢
  exact Nat.or_lt_two_pow hx hy

/-- Bit `k` (below 32) of a value is not changed by truncation to 32 bits. -/
theorem and_bit_mod_uint32 (x k : Nat) (hk : k < 32) :
    (x % UINT32_MOD) &&& 2 ^ k = x &&& 2 ^ k := by
  have h : UINT32_MOD = 2 ^ 32 := by decide
  rw [h]
  apply Nat.eq_of_testBit_eq
  intro i
  simp only [Nat.testBit_and, Nat.testBit_mod_two_pow, Nat.testBit_two_pow]
  by_cases hi : k = i
  · subst hi; simp [hk]
  · simp [hi]

theorem or_and_self_pow (x k : Nat) : (x ||| 2 ^ k) &&& 2 ^ k = 2 ^ k := by
  apply Nat.eq_of_testBit_eq
  intro i
  simp only [Nat.testBit_and, Nat.testBit_or, Nat.testBit_two_pow]
  by_cases hi : k = i <;> simp [hi]

theorem or_and_other_pow (x j k : Nat) (hjk : j ≠ k) : (x ||| 2 ^ j) &&& 2 ^ k = x &&& 2 ^ k := by
  apply Nat.eq_of_testBit_eq
  intro i
  simp only [Nat.testBit_and, Nat.testBit_or, Nat.testBit_two_pow]
  by_cases hi : k = i
  · subst hi; simp [hjk]
  · simp [hi]

/-- The packing step of `GetFrameTimecode` for a start value and a source. -/
theorem GetFrameTimecode_vitc1 (c : Settings) (frame : IDeckLinkVideoInputFrame)
    (t : IDeckLinkTimecode) (h : frame.vitc1 = some t) :
    GetFrameTimecode c frame =
      if t.flags &&& c.bmdTimecodeIsDropFrame ≠ 0
      then (((0 ||| t.bcd) % UINT32_MOD) ||| 0x40) % UINT32_MOD
      else (0 ||| t.bcd) % UINT32_MOD := by
  simp [GetFrameTimecode, h]

theorem GetFrameTimecode_vitc2 (c : Settings) (frame : IDeckLinkVideoInputFrame)
    (t : IDeckLinkTimecode) (h1 : frame.vitc1 = none) (h : frame.vitc2 = some t) :
    GetFrameTimecode c frame =
      if t.flags &&& c.bmdTimecodeIsDropFrame ≠ 0
      then (((0x80 ||| t.bcd) % UINT32_MOD) ||| 0x40) % UINT32_MOD
      else (0x80 ||| t.bcd) % UINT32_MOD := by
  simp [GetFrameTimecode, h1, h]

theorem GetFrameTimecode_neither (c : Settings) (frame : IDeckLinkVideoInputFrame)
    (h1 : frame.vitc1 = none) (h2 : frame.vitc2 = none) :
    GetFrameTimecode c frame = 0xffffffff := by
  simp [GetFrameTimecode, h1, h2]

/-- Claim C4: `GetFrameTimecode` returns the sentinel `0xFFFFFFFF` when neither
timecode source is present; otherwise it returns the BCD value of the chosen
source OR `0x80` if only the secondary source is present OR `0x40` if the chosen
source reports the drop-frame flag, the primary source being chosen whenever it
is present (`timecodeSpec`).  In particular only-secondary implies that bit
`0x80` is set, and a drop-frame flag implies that bit `0x40` is set.  The BCD
value is a 32-bit unsigned value. -/
theorem GetFrameTimecode_eq_timecodeSpec (c : Settings) (frame : IDeckLinkVideoInputFrame)
    (hbcd : ∀ t, chosenSource frame = some t → t.bcd < UINT32_MOD) :
    GetFrameTimecode c frame = timecodeSpec c frame
    ∧ (frame.vitc1 = none ∧ frame.vitc2 = none → GetFrameTimecode c frame = 0xffffffff)
    ∧ (onlySecondary frame = true → GetFrameTimecode c frame &&& 0x80 = 0x80)
    ∧ (∀ t, chosenSource frame = some t → reportsDropFrame c t = true →
        GetFrameTimecode c frame &&& 0x40 = 0x40) := by
  have h40 : (0x40 : Nat) < UINT32_MOD := by decide
  have h80 : (0x80 : Nat) < UINT32_MOD := by decide
  have e40 : (0x40 : Nat) = 2 ^ 6 := by decide
  have e80 : (0x80 : Nat) = 2 ^ 7 := by decide
  cases h1 : frame.vitc1 with
  | some t =>
    have hc : chosenSource frame = some t := by simp [chosenSource, h1]
    have hb : t.bcd < UINT32_MOD := hbcd t hc
    have hcode := GetFrameTimecode_vitc1 c frame t h1
    refine ⟨?_, ?_, ?_, ?_⟩
    · rw [hcode]
      simp only [timecodeSpec, hc, onlySecondary, h1, reportsDropFrame, Nat.zero_or]
      by_cases hf : t.flags &&& c.bmdTimecodeIsDropFrame ≠ 0
      · simp [hf, mod_uint32_of_lt hb, mod_uint32_of_lt (or_lt_uint32 hb h40)]
      · simp [hf, mod_uint32_of_lt hb]
    · intro h; simp at h
    · intro h; simp [onlySecondary, h1] at h
    · intro t' ht' hd
      rw [hc] at ht'
      cases ht'
      have hf : t.flags &&& c.bmdTimecodeIsDropFrame ≠ 0 := by
        simpa [reportsDropFrame] using hd
      rw [hcode, if_pos hf, e40, and_bit_mod_uint32 _ 6 (by decide), or_and_self_pow]
  | none =>
    cases h2 : frame.vitc2 with
    | none =>
      have hcode := GetFrameTimecode_neither c frame h1 h2
      refine ⟨?_, ?_, ?_, ?_⟩
      · rw [hcode]; simp [timecodeSpec, chosenSource, h1, h2]
      · intro _; exact hcode
      · intro h; simp [onlySecondary, h1, h2] at h
      · intro t ht; simp [chosenSource, h1, h2] at ht
    | some t =>
      have hc : chosenSource frame = some t := by simp [chosenSource, h1, h2]
      have hb : t.bcd < UINT32_MOD := hbcd t hc
      have hcode := GetFrameTimecode_vitc2 c frame t h1 h2
      have hb80 : 0x80 ||| t.bcd < UINT32_MOD := or_lt_uint32 h80 hb
      refine ⟨?_, ?_, ?_, ?_⟩
      · rw [hcode]
        simp only [timecodeSpec, hc, onlySecondary, h1, h2, reportsDropFrame]
        by_cases hf : t.flags &&& c.bmdTimecodeIsDropFrame ≠ 0
        · simp [hf, mod_uint32_of_lt hb80, mod_uint32_of_lt (or_lt_uint32 hb80 h40),
            Nat.or_comm t.bcd 128]
        · simp [hf, mod_uint32_of_lt hb80, Nat.or_comm t.bcd 128]
      · intro h; simp [h2] at h
      · intro _
        rw [hcode]
        by_cases hf : t.flags &&& c.bmdTimecodeIsDropFrame ≠ 0
        · rw [if_pos hf, e80, and_bit_mod_uint32 _ 7 (by decide), e40,
            or_and_other_pow _ 6 7 (by decide), and_bit_mod_uint32 _ 7 (by decide),
            Nat.or_comm, or_and_self_pow]
        · rw [if_neg hf, e80, and_bit_mod_uint32 _ 7 (by decide), Nat.or_comm, or_and_self_pow]
      · intro t' ht' hd
        rw [hc] at ht'
        cases ht'
        have hf : t.flags &&& c.bmdTimecodeIsDropFrame ≠ 0 := by
          simpa [reportsDropFrame] using hd
        rw [hcode, if_pos hf, e40, and_bit_mod_uint32 _ 6 (by decide), or_and_self_pow]

/-- Claim C3, amended: for every frame whose primary timecode source is present,
and for every BCD value and flag set that source reports, bit `0x80` of the
timecode returned by `GetFrameTimecode` is bit `0x80` of the BCD value; so it
is clear whenever bit `0x80` of the BCD value is clear. -/
theorem GetFrameTimecode_primary_bit7 (c : Settings) (frame : IDeckLinkVideoInputFrame)
    (t : IDeckLinkTimecode) (h1 : frame.vitc1 = some t) :
    GetFrameTimecode c frame &&& 0x80 = t.bcd &&& 0x80
    ∧ (t.bcd &&& 0x80 = 0 → GetFrameTimecode c frame &&& 0x80 = 0) := by
  have e40 : (0x40 : Nat) = 2 ^ 6 := by decide
  have e80 : (0x80 : Nat) = 2 ^ 7 := by decide
  have key : GetFrameTimecode c frame &&& 0x80 = t.bcd &&& 0x80 := by
    rw [GetFrameTimecode_vitc1 c frame t h1]
    by_cases hf : t.flags &&& c.bmdTimecodeIsDropFrame ≠ 0
    · rw [if_pos hf, e80, and_bit_mod_uint32 _ 7 (by decide), e40,
        or_and_other_pow _ 6 7 (by decide), and_bit_mod_uint32 _ 7 (by decide), Nat.zero_or]
    · rw [if_neg hf, e80, and_bit_mod_uint32 _ 7 (by decide), Nat.zero_or]
  exact ⟨key, fun h => by rw [key, h]⟩

theorem GetFrameTimecode_primary_bit7_witness :
    (exampleFrame 0x25).vitc1 = some (IDeckLinkTimecode.mk 0x25 0)
    ∧ (GetFrameTimecode exampleSettings (exampleFrame 0x25) &&& 0x80
        = (IDeckLinkTimecode.mk 0x25 0).bcd &&& 0x80
      ∧ ((IDeckLinkTimecode.mk 0x25 0).bcd &&& 0x80 = 0 →
          GetFrameTimecode exampleSettings (exampleFrame 0x25) &&& 0x80 = 0)) :=
  ⟨rfl, GetFrameTimecode_primary_bit7 exampleSettings (exampleFrame 0x25)
    (IDeckLinkTimecode.mk 0x25 0) rfl⟩

/-- The primary source is present and reports the BCD value `0x80`: the
returned timecode has bit `0x80` set. -/
theorem primary_source_bcd_bit7_set :
    (exampleFrame 0x80).vitc1 = some (IDeckLinkTimecode.mk 0x80 0)
    ∧ GetFrameTimecode exampleSettings (exampleFrame 0x80) &&& 0x80 = 0x80 := by
  decide

theorem GetFrameTimecode_eq_timecodeSpec_witness :
    (∀ t, chosenSource exampleSecondaryFrame = some t → t.bcd < UINT32_MOD)
    ∧ (GetFrameTimecode exampleSettings exampleSecondaryFrame
          = timecodeSpec exampleSettings exampleSecondaryFrame
      ∧ (exampleSecondaryFrame.vitc1 = none ∧ exampleSecondaryFrame.vitc2 = none →
          GetFrameTimecode exampleSettings exampleSecondaryFrame = 0xffffffff)
      ∧ (onlySecondary exampleSecondaryFrame = true →
          GetFrameTimecode exampleSettings exampleSecondaryFrame &&& 0x80 = 0x80)
      ∧ (∀ t, chosenSource exampleSecondaryFrame = some t →
          reportsDropFrame exampleSettings t = true →
          GetFrameTimecode exampleSettings exampleSecondaryFrame &&& 0x40 = 0x40)) :=
  have hbcd : ∀ t, chosenSource exampleSecondaryFrame = some t → t.bcd < UINT32_MOD := by
    intro t ht
    have : t = IDeckLinkTimecode.mk 0x12 2 := by
      simpa [chosenSource, exampleSecondaryFrame] using ht.symm
    rw [this]
    decide
  ⟨hbcd, GetFrameTimecode_eq_timecodeSpec exampleSettings exampleSecondaryFrame hbcd⟩

/-! ### Frame size -/

theorem toSizeT_natCast (c : Settings) (n : Nat) : toSizeT c (n : Int) = n % SIZE_MOD c := by
  unfold toSizeT
  rw [← Int.natCast_mod, Int.toNat_natCast]

/-- The `std::size_t` product of `CalculateFrameDataSize` on non-negative
dimensions is the exact product reduced modulo `SIZE_MAX + 1`. -/
theorem CalculateFrameDataSize_natCast (c : Settings) (s : Receiver)
    (m : IDeckLinkDisplayMode) (w h : Nat)
    (hm : s.displayMode_ = some m) (hw : m.width = (w : Int)) (hh : m.height = (h : Int)) :
    CalculateFrameDataSize c s
      = some (bitsPerPixel s.pixelFormat_ * w * h % SIZE_MOD c / 8) := by
  simp only [CalculateFrameDataSize, hm, hw, hh, toSizeT_natCast]
  congr 2
  simp [Nat.mul_mod, Nat.mod_mod]

theorem SIZE_MOD_ge (c : Settings) : 4294967296 ≤ SIZE_MOD c := by
  unfold SIZE_MOD
  cases c.sizeWidth <;> decide

/-- Claim C7, amended: for every display mode of width `w ≥ 0` and height
`h ≥ 0`, `CalculateFrameDataSize()` equals `(bpp * w * h) / 8` (integer
division) with `bpp = 16` for the 8-bit YUV pixel format and `bpp = 32` for the
8-bit BGRA pixel format, provided that `bpp * w * h` does not exceed `SIZE_MAX`
(`2 ^ 64 - 1` on an x64 build, `2 ^ 32 - 1` on an x86 build), so that the
`std::size_t` product does not wrap; in particular it is 4,147,200 for YUV8 at
1920x1080 and 8,294,400 for BGRA8 at 1920x1080. -/
theorem CalculateFrameDataSize_eq (c : Settings) (s : Receiver) (m : IDeckLinkDisplayMode)
    (w h : Nat)
    (hm : s.displayMode_ = some m) (hw : m.width = (w : Int)) (hh : m.height = (h : Int)) :
    (s.pixelFormat_ = BMDPixelFormat.bmdFormat8BitYUV → 16 * w * h < SIZE_MOD c →
      CalculateFrameDataSize c s = some (16 * w * h / 8))
    ∧ (s.pixelFormat_ = BMDPixelFormat.bmdFormat8BitBGRA → 32 * w * h < SIZE_MOD c →
      CalculateFrameDataSize c s = some (32 * w * h / 8))
    ∧ (s.pixelFormat_ = BMDPixelFormat.bmdFormat8BitYUV → w = 1920 → h = 1080 →
      CalculateFrameDataSize c s = some 4147200)
    ∧ (s.pixelFormat_ = BMDPixelFormat.bmdFormat8BitBGRA → w = 1920 → h = 1080 →
      CalculateFrameDataSize c s = some 8294400) := by
  have key := CalculateFrameDataSize_natCast c s m w h hm hw hh
  have hge := SIZE_MOD_ge c
  refine ⟨?_, ?_, ?_, ?_⟩
  · intro hp hfit
    rw [key, hp]
    simp only [bitsPerPixel]
    rw [Nat.mod_eq_of_lt hfit]
  · intro hp hfit
    rw [key, hp]
    simp only [bitsPerPixel]
    rw [Nat.mod_eq_of_lt hfit]
  · intro hp h1 h2
    rw [key, hp, h1, h2]
    simp only [bitsPerPixel]
    rw [Nat.mod_eq_of_lt (by omega)]
  · intro hp h1 h2
    rw [key, hp, h1, h2]
    simp only [bitsPerPixel]
    rw [Nat.mod_eq_of_lt (by omega)]

theorem CalculateFrameDataSize_eq_witness :
    ({ displayMode_ := some exampleHD,
       pixelFormat_ := BMDPixelFormat.bmdFormat8BitBGRA } : Receiver).displayMode_
      = some exampleHD
    ∧ exampleHD.width = ((1920 : Nat) : Int) ∧ exampleHD.height = ((1080 : Nat) : Int)
    ∧ CalculateFrameDataSize exampleSettings
        { displayMode_ := some exampleHD, pixelFormat_ := BMDPixelFormat.bmdFormat8BitBGRA }
      = some 8294400 :=
  ⟨rfl, rfl, rfl,
    (CalculateFrameDataSize_eq exampleSettings
      { displayMode_ := some exampleHD, pixelFormat_ := BMDPixelFormat.bmdFormat8BitBGRA }
      exampleHD 1920 1080 rfl rfl rfl).2.2.2 rfl rfl rfl⟩

/-- A display mode of 1073741824 x 1073741824 in 8-bit YUV: the `std::size_t`
product `16 * w * h` is `2 ^ 64`, which wraps to 0 on an x64 build as on an x86
build, so the computed size is 0 and not `(16 * w * h) / 8`. -/
theorem CalculateFrameDataSize_wraps :
    CalculateFrameDataSize exampleSettings
        { displayMode_ := some (IDeckLinkDisplayMode.mk 1073741824 1073741824
            BMDFieldDominance.bmdProgressiveFrame 0),
          pixelFormat_ := BMDPixelFormat.bmdFormat8BitYUV } = some 0
    ∧ CalculateFrameDataSize (Settings.mk true SizeWidth.bits32 2)
        { displayMode_ := some (IDeckLinkDisplayMode.mk 1073741824 1073741824
            BMDFieldDominance.bmdProgressiveFrame 0),
          pixelFormat_ := BMDPixelFormat.bmdFormat8BitYUV } = some 0
    ∧ (0 : Nat) ≠ 16 * 1073741824 * 1073741824 / 8 := by
  decide

/-! ### Frame queue -/

theorem VideoInputFrameArrived_push (c : Settings) (s : Receiver)
    (frame : IDeckLinkVideoInputFrame) (hlen : s.frameQueue_.length < maxQueueLength_)
    (hm : s.mutex_ = false) (hfit : frameFits c s frame) :
    VideoInputFrameArrived c (some frame) s =
      some { s with frameQueue_ := s.frameQueue_ ++ [emplaced c frame] } := by
  obtain ⟨h0, h1, h2, h3⟩ := hfit
  have hmin : INT_MIN ≤ frame.rowBytes * frame.height := by
    have : INT_MIN ≤ 0 := by decide
    omega
  have hassert : (!c.ndebug &&
      !(decide (CalculateFrameDataSize c s = some (toSizeT c (frame.rowBytes * frame.height)))))
      = false := by
    cases hn : c.ndebug with
    | true => simp
    | false => simp [h3 hn]
  simp only [VideoInputFrameArrived, emplaced]
  rw [if_neg (by omega), if_neg (by omega), hassert]
  simp only [Bool.false_eq_true, if_false]
  rw [if_neg (by omega)]
  simp [hm]

theorem VideoInputFrameArrived_drop (c : Settings) (s : Receiver)
    (frame : IDeckLinkVideoInputFrame) (hlen : maxQueueLength_ ≤ s.frameQueue_.length) :
    VideoInputFrameArrived c (some frame) s =
      if s.dropCount_ + 1 ≤ INT_MAX then some { s with dropCount_ := s.dropCount_ + 1 }
      else none := by
  simp only [VideoInputFrameArrived]
  rw [if_pos hlen]

theorem frameFits_congr (c : Settings) (s s1 : Receiver) (frame : IDeckLinkVideoInputFrame)
    (hd : s1.displayMode_ = s.displayMode_) (hp : s1.pixelFormat_ = s.pixelFormat_)
    (h : frameFits c s frame) : frameFits c s1 frame := by
  obtain ⟨h0, h1, h2, h3⟩ := h
  refine ⟨h0, h1, h2, fun hn => ?_⟩
  have := h3 hn
  simpa [CalculateFrameDataSize, hd, hp] using this

/-- What a run of arrivals does to a receiver whose queue is within capacity:
the first frames fill the queue up to `maxQueueLength_`, each later one is
counted as dropped. -/
theorem frameArrivals_eq (c : Settings) (frames : List IDeckLinkVideoInputFrame) :
    ∀ s : Receiver, s.mutex_ = false →
      s.frameQueue_.length ≤ maxQueueLength_ →
      (∀ frame ∈ frames, frameFits c s frame) →
      (maxQueueLength_ - s.frameQueue_.length < frames.length →
        s.dropCount_ +
          ((frames.length - (maxQueueLength_ - s.frameQueue_.length) : Nat) : Int) ≤ INT_MAX) →
      frameArrivals c frames s =
        some { s with
          frameQueue_ := s.frameQueue_ ++
            (frames.take (maxQueueLength_ - s.frameQueue_.length)).map (emplaced c)
          dropCount_ := s.dropCount_ +
            ((frames.length - (maxQueueLength_ - s.frameQueue_.length) : Nat) : Int) } := by
  induction frames with
  | nil =>
    intro s _ _ _ _
    simp [frameArrivals]
  | cons frame rest ih =>
    intro s hm hlen hfit hd
    have hfit0 : frameFits c s frame := hfit frame (List.mem_cons_self _ _)
    by_cases hfull : s.frameQueue_.length < maxQueueLength_
    · -- the frame is queued
      have hstep := VideoInputFrameArrived_push c s frame hfull hm hfit0
      simp only [frameArrivals, hstep]
      have hsub : maxQueueLength_ - s.frameQueue_.length
          = (maxQueueLength_ - (s.frameQueue_.length + 1)) + 1 := by omega
      rw [ih]
      · simp only [List.length_append, List.length_singleton, List.length_cons]
        rw [hsub]
        simp only [List.take_succ_cons, List.map_cons, List.append_assoc, List.singleton_append,
          Nat.add_sub_add_right, List.length_nil, Nat.zero_add]
      · exact hm
      · simp only [List.length_append, List.length_singleton]; omega
      · intro f hf
        exact frameFits_congr c s _ f rfl rfl (hfit f (List.mem_cons_of_mem _ hf))
      · simp only [List.length_append, List.length_singleton]
        simp only [List.length_cons] at hd
        intro hlt
        have := hd (by omega)
        omega
    · -- the frame is dropped
      have hge : maxQueueLength_ ≤ s.frameQueue_.length := by omega
      have hzero : maxQueueLength_ - s.frameQueue_.length = 0 := by omega
      rw [hzero] at hd
      simp only [List.length_cons, Nat.sub_zero] at hd
      have hd := hd (Nat.succ_pos _)
      have hinc : s.dropCount_ + 1 ≤ INT_MAX := by push_cast at hd; omega
      have hstep := VideoInputFrameArrived_drop c s frame hge
      rw [if_pos hinc] at hstep
      simp only [frameArrivals, hstep]
      rw [ih]
      · simp only [hzero, List.take_zero, List.map_nil, List.append_nil, Nat.sub_zero,
          List.length_cons]
        congr 2
        push_cast
        omega
      · exact hm
      · exact hlen
      · intro f hf
        exact frameFits_congr c s _ f rfl rfl (hfit f (List.mem_cons_of_mem _ hf))
      · simp only [hzero, Nat.sub_zero]
        intro _
        push_cast at hd ⊢
        omega

theorem frameArrivals_append (c : Settings) (a b : List IDeckLinkVideoInputFrame) :
    ∀ s : Receiver,
      frameArrivals c (a ++ b) s = (frameArrivals c a s).bind (frameArrivals c b) := by
  induction a with
  | nil => intro s; simp [frameArrivals]
  | cons frame rest ih =>
    intro s
    simp only [List.cons_append, frameArrivals]
    cases VideoInputFrameArrived c (some frame) s with
    | none => simp
    | some s1 => simp [ih s1]

/-- One arrival more than `maxQueueLength_ + INT_MAX` overflows `dropCount_`. -/
theorem frameArrivals_overflow (c : Settings) (s0 : Receiver)
    (frames : List IDeckLinkVideoInputFrame) (frame : IDeckLinkVideoInputFrame)
    (hq : s0.frameQueue_ = []) (hd : s0.dropCount_ = 0) (hm : s0.mutex_ = false)
    (hfit : ∀ f ∈ frames, frameFits c s0 f)
    (hlen : frames.length = 8 + 2147483647) :
    frameArrivals c (frames ++ [frame]) s0 = none := by
  have h8 : maxQueueLength_ = 8 := rfl
  have hmax : INT_MAX = 2147483647 := rfl
  rw [frameArrivals_append, frameArrivals_eq c frames s0 hm (by simp [hq]) hfit
    (by intro _; rw [hq, hd, h8, hlen, hmax]; simp)]
  simp only [Option.some_bind, frameArrivals]
  rw [VideoInputFrameArrived_drop]
  · rw [if_neg]
    simp only [hd, hq, hlen, h8, hmax, List.length_nil]
    omega
  · simp only [hq, h8, List.nil_append, List.length_map, List.length_take, hlen,
      List.length_nil]
    omega

/-- Claim C1, amended: starting from a receiver with an empty queue, drop count
0 and a free mutex, for every `N` with `0 ≤ N ≤ 8 + 2147483647`, after `N`
frame-arrived notifications carrying a non-null frame as the driver delivers it
(`frameFits`) and no interleaved `DequeueFrame` or format-change call,
`CountQueuedFrames()` equals `min(N, 8)` and `CountDroppedFrames()` equals
`max(0, N - 8)`. -/
theorem frameArrivals_counts (c : Settings) (s0 : Receiver)
    (frames : List IDeckLinkVideoInputFrame)
    (hq : s0.frameQueue_ = []) (hd : s0.dropCount_ = 0) (hm : s0.mutex_ = false)
    (hfit : ∀ frame ∈ frames, frameFits c s0 frame)
    (hN : frames.length ≤ 8 + 2147483647) :
    ∃ s, frameArrivals c frames s0 = some s
      ∧ CountQueuedFrames s = min frames.length 8
      ∧ CountDroppedFrames s = max 0 ((frames.length : Int) - 8) := by
  have h8 : maxQueueLength_ = 8 := rfl
  have hmax : INT_MAX = 2147483647 := rfl
  refine ⟨_, frameArrivals_eq c frames s0 hm (by simp [hq]) hfit
    (by intro _; rw [hq, hd, h8, hmax]; simp only [List.length_nil]; omega), ?_, ?_⟩
  · simp only [CountQueuedFrames, hq, h8, List.nil_append, List.length_map, List.length_take,
      List.length_nil, Nat.sub_zero]
    exact Nat.min_comm _ _
  · simp only [CountDroppedFrames, hq, hd, h8, List.length_nil, Nat.sub_zero]
    omega

theorem frameArrivals_counts_witness :
    exampleReceiver.frameQueue_ = [] ∧ exampleReceiver.dropCount_ = 0
    ∧ exampleReceiver.mutex_ = false
    ∧ (∀ frame ∈ List.replicate 10 (exampleFrame 5), frameFits exampleSettings exampleReceiver frame)
    ∧ (List.replicate 10 (exampleFrame 5)).length ≤ 8 + 2147483647
    ∧ ∃ s, frameArrivals exampleSettings (List.replicate 10 (exampleFrame 5)) exampleReceiver = some s
      ∧ CountQueuedFrames s = min (List.replicate 10 (exampleFrame 5)).length 8
      ∧ CountDroppedFrames s = max 0 (((List.replicate 10 (exampleFrame 5)).length : Int) - 8) :=
  ⟨rfl, rfl, rfl, by decide, by decide,
    frameArrivals_counts exampleSettings exampleReceiver (List.replicate 10 (exampleFrame 5))
      rfl rfl rfl (by decide) (by decide)⟩

/-- With `N = 2147483656` arrivals the last one increments `dropCount_`, an
`int`, at `INT_MAX`: the call has no defined result, and the count
`max(0, N - 8)` is not a value of `int`. -/
theorem frameArrivals_counter_overflow :
    frameArrivals exampleSettings (List.replicate 2147483656 (exampleFrame 5)) exampleReceiver = none
    ∧ INT_MAX < max 0 ((2147483656 : Int) - 8) := by
  constructor
  · have hsplit : List.replicate 2147483656 (exampleFrame 5)
        = List.replicate 2147483655 (exampleFrame 5) ++ [exampleFrame 5] :=
      List.replicate_succ' 2147483655 (exampleFrame 5)
    rw [hsplit]
    apply frameArrivals_overflow exampleSettings exampleReceiver _ _ rfl rfl rfl
    · intro f hf
      rw [List.eq_of_mem_replicate hf]
      decide
    · rw [List.length_replicate]
  · decide

theorem flushQueue_eq_nil (q : List FrameData) : flushQueue q = [] := by
  induction q with
  | nil => rfl
  | cons _ rest ih => simpa [flushQueue] using ih

/-- The three ways in which `VideoInputFrameArrived` returns. -/
theorem VideoInputFrameArrived_cases (c : Settings)
    (videoFrame : Option IDeckLinkVideoInputFrame) (s s1 : Receiver)
    (h : VideoInputFrameArrived c videoFrame s = some s1) :
    (videoFrame = none ∧ s1 = s)
    ∨ (maxQueueLength_ ≤ s.frameQueue_.length ∧ s.dropCount_ + 1 ≤ INT_MAX
        ∧ s1 = { s with dropCount_ := s.dropCount_ + 1 })
    ∨ (s.frameQueue_.length < maxQueueLength_ ∧ s.mutex_ = false
        ∧ ∃ frame, videoFrame = some frame
          ∧ s1 = { s with frameQueue_ := s.frameQueue_ ++ [emplaced c frame] }) := by
  cases videoFrame with
  | none =>
    left
    simp only [VideoInputFrameArrived, Option.some.injEq] at h
    exact ⟨rfl, h.symm⟩
  | some frame =>
    right
    by_cases hfull : maxQueueLength_ ≤ s.frameQueue_.length
    · left
      rw [VideoInputFrameArrived_drop c s frame hfull] at h
      split at h
      · rename_i hinc
        simp only [Option.some.injEq] at h
        exact ⟨hfull, hinc, h.symm⟩
      · cases h
    · right
      simp only [VideoInputFrameArrived, if_neg hfull] at h
      split at h
      · cases h
      · split at h
        · cases h
        · split at h
          · cases h
          · split at h
            · cases h
            · rename_i hm
              simp only [Option.some.injEq] at h
              refine ⟨by omega, by simpa using hm, frame, rfl, ?_⟩
              rw [← h]
              rfl

/-- How `VideoInputFormatChanged` returns. -/
theorem VideoInputFormatChanged_cases (events flags : Nat) (mode : Option IDeckLinkDisplayMode)
    (s s1 : Receiver) (h : VideoInputFormatChanged events mode flags s = some s1) :
    s.mutex_ = false ∧ ∃ old m, s.displayMode_ = some old ∧ mode = some m
      ∧ s.input_.isSome = true
      ∧ s1 = { s with
          displayMode_ := some m
          frameQueue_ := []
          calls := s.calls ++
            [DriverCall.displayModeRelease old, DriverCall.displayModeAddRef m] ++
            [DriverCall.PauseStreams, DriverCall.EnableVideoInput m.displayMode s.pixelFormat_,
             DriverCall.FlushStreams, DriverCall.StartStreams] } := by
  cases hm : s.mutex_ with
  | true => simp [VideoInputFormatChanged, hm] at h
  | false =>
    cases hold : s.displayMode_ with
    | none => simp [VideoInputFormatChanged, hm, hold] at h
    | some old =>
      cases mode with
      | none => simp [VideoInputFormatChanged, hm, hold] at h
      | some m =>
        cases hinp : s.input_ with
        | none => simp [VideoInputFormatChanged, hm, hold, hinp] at h
        | some inp =>
          simp only [VideoInputFormatChanged, hm, hold, hinp, flushQueue_eq_nil,
            Bool.false_eq_true, if_false, Option.some.injEq] at h
          refine ⟨rfl, old, m, rfl, rfl, rfl, ?_⟩
          rw [← h]

theorem DequeueFrame_cases (s s1 : Receiver) (h : DequeueFrame s = some s1) :
    s.mutex_ = false ∧ s1 = { s with frameQueue_ := s.frameQueue_.tail } := by
  cases hm : s.mutex_ with
  | true => simp [DequeueFrame, hm] at h
  | false =>
    cases hq : s.frameQueue_ with
    | nil =>
      simp only [DequeueFrame, hm, hq, Bool.false_eq_true, if_false, Option.some.injEq] at h
      refine ⟨rfl, ?_⟩
      rw [← h]
      cases s
      simp_all
    | cons front rest =>
      simp only [DequeueFrame, hm, hq, Bool.false_eq_true, if_false, Option.some.injEq] at h
      refine ⟨rfl, ?_⟩
      rw [← h]
      rfl

theorem LockOldestFrameData_cases (s s1 : Receiver) (r : Option (List UInt8))
    (h : LockOldestFrameData s = some (r, s1)) :
    s.mutex_ = false
    ∧ ((s.frameQueue_ = [] ∧ r = none ∧ s1 = s)
      ∨ (∃ front rest, s.frameQueue_ = front :: rest ∧ r = some front.image_
          ∧ s1 = { s with mutex_ := true })) := by
  cases hm : s.mutex_ with
  | true => simp [LockOldestFrameData, hm] at h
  | false =>
    refine ⟨rfl, ?_⟩
    cases hq : s.frameQueue_ with
    | nil =>
      simp only [LockOldestFrameData, hm, hq, Bool.false_eq_true, if_false, Option.some.injEq,
        Prod.mk.injEq] at h
      exact Or.inl ⟨rfl, h.1.symm, h.2.symm⟩
    | cons front rest =>
      simp only [LockOldestFrameData, hm, hq, Bool.false_eq_true, if_false, Option.some.injEq,
        Prod.mk.injEq] at h
      refine Or.inr ⟨front, rest, rfl, h.1.symm, ?_⟩
      rw [← h.2]

theorem UnlockOldestFrameData_cases (s s1 : Receiver) (h : UnlockOldestFrameData s = some s1) :
    s.mutex_ = true ∧ s1 = { s with mutex_ := false } := by
  cases hm : s.mutex_ with
  | false => simp [UnlockOldestFrameData, hm] at h
  | true =>
    simp only [UnlockOldestFrameData, hm, if_true, Option.some.injEq] at h
    exact ⟨rfl, h.symm⟩

theorem GetOldestTimecode_cases (s s1 : Receiver) (t : Nat)
    (h : GetOldestTimecode s = some (t, s1)) : s.mutex_ = false ∧ s1 = s := by
  cases hm : s.mutex_ with
  | true => simp [GetOldestTimecode, hm] at h
  | false =>
    cases hq : s.frameQueue_ with
    | nil =>
      simp only [GetOldestTimecode, hm, hq, Bool.false_eq_true, if_false, Option.some.injEq,
        Prod.mk.injEq] at h
      exact ⟨rfl, h.2.symm⟩
    | cons front rest =>
      simp only [GetOldestTimecode, hm, hq, Bool.false_eq_true, if_false, Option.some.injEq,
        Prod.mk.injEq] at h
      exact ⟨rfl, h.2.symm⟩

/-- What one operation that returns does to the queue, the drop counter and
the mutex. -/
theorem step_effect (c : Settings) (op : Op) (s s1 : Receiver) (h : step c op s = some s1) :
    s.dropCount_ ≤ s1.dropCount_
    ∧ (s.frameQueue_.length ≤ maxQueueLength_ → s1.frameQueue_.length ≤ maxQueueLength_)
    ∧ (s.mutex_ = true → op ≠ Op.unlockOldestFrameData →
        s1.mutex_ = true ∧ s1.frameQueue_ = s.frameQueue_)
    ∧ ((s.mutex_ = true → s.frameQueue_ ≠ []) →
        (s1.mutex_ = true → s1.frameQueue_ ≠ [])) := by
  cases op with
  | frameArrived videoFrame =>
    rcases VideoInputFrameArrived_cases c videoFrame s s1 h with
      ⟨_, rfl⟩ | ⟨_, _, rfl⟩ | ⟨hlt, hm, frame, _, rfl⟩
    · exact ⟨le_refl _, fun h => h, fun hl _ => ⟨hl, rfl⟩, fun h => h⟩
    · exact ⟨by simp, fun h => h, fun hl _ => ⟨hl, rfl⟩, fun h => h⟩
    · refine ⟨le_refl _, fun _ => ?_, fun hl _ => ?_, fun _ hl => ?_⟩
      · simp only [List.length_append, List.length_singleton]; omega
      · rw [hm] at hl; cases hl
      · simp only at hl; rw [hm] at hl; cases hl
  | dequeueFrame =>
    obtain ⟨hm, rfl⟩ := DequeueFrame_cases s s1 h
    refine ⟨le_refl _, fun hq => ?_, fun hl _ => ?_, fun _ hl => ?_⟩
    · simp only [List.length_tail]; omega
    · rw [hm] at hl; cases hl
    · simp only at hl; rw [hm] at hl; cases hl
  | lockOldestFrameData =>
    simp only [step, Option.map_eq_some', Prod.exists, exists_eq_right] at h
    obtain ⟨r, h⟩ := h
    obtain ⟨hm, ⟨_, _, rfl⟩ | ⟨front, rest, hq, _, rfl⟩⟩ := LockOldestFrameData_cases s s1 r h
    · exact ⟨le_refl _, fun h => h, fun hl _ => ⟨hl, rfl⟩, fun h => h⟩
    · refine ⟨le_refl _, fun h => h, fun hl _ => ?_, fun _ _ => ?_⟩
      · rw [hm] at hl; cases hl
      · simp [hq]
  | unlockOldestFrameData =>
    obtain ⟨hm, rfl⟩ := UnlockOldestFrameData_cases s s1 h
    refine ⟨le_refl _, fun h => h, fun _ hne => absurd rfl hne, fun _ hl => ?_⟩
    simp at hl
  | getOldestTimecode =>
    simp only [step, Option.map_eq_some', Prod.exists, exists_eq_right] at h
    obtain ⟨t, h⟩ := h
    obtain ⟨_, rfl⟩ := GetOldestTimecode_cases s s1 t h
    exact ⟨le_refl _, fun h => h, fun hl _ => ⟨hl, rfl⟩, fun h => h⟩
  | formatChanged events mode flags =>
    obtain ⟨hm, old, m, _, _, _, rfl⟩ := VideoInputFormatChanged_cases events flags mode s s1 h
    refine ⟨le_refl _, fun _ => by simp, fun hl _ => ?_, fun _ hl => ?_⟩
    · rw [hm] at hl; cases hl
    · simp only at hl; rw [hm] at hl; cases hl

/-- Invariants of the states reachable from a receiver with an empty queue. -/
theorem Reachable_invariant (c : Settings) (s0 s : Receiver) (hq : s0.frameQueue_ = [])
    (hr : Reachable c s0 s) :
    s.frameQueue_.length ≤ maxQueueLength_ ∧ s0.dropCount_ ≤ s.dropCount_ := by
  induction hr with
  | start => simp [hq]
  | next op s s1 _ hstep ih =>
    obtain ⟨hd, hlen, _, _⟩ := step_effect c op s s1 hstep
    exact ⟨hlen ih.1, le_trans ih.2 hd⟩

/-- In the states reachable from a receiver whose mutex is free, the mutex is
held only while the queue is non-empty. -/
theorem Reachable_mutex (c : Settings) (s0 s : Receiver) (hm : s0.mutex_ = false)
    (hr : Reachable c s0 s) : s.mutex_ = true → s.frameQueue_ ≠ [] := by
  induction hr with
  | start => intro h; rw [hm] at h; cases h
  | next op s s1 _ hstep ih => exact (step_effect c op s s1 hstep).2.2.2 ih

theorem Reachable_of_run (c : Settings) (ops : List Op) :
    ∀ s0 s : Receiver, run c ops s0 = some s → Reachable c s0 s := by
  induction ops with
  | nil =>
    intro s0 s h
    simp only [run, Option.some.injEq] at h
    rw [← h]
    exact Reachable.start
  | cons op rest ih =>
    intro s0 s h
    simp only [run] at h
    cases hstep : step c op s0 with
    | none => simp [hstep] at h
    | some s1 =>
      simp only [hstep] at h
      have hrest := ih s1 s h
      clear ih h
      induction hrest with
      | start => exact Reachable.next op s0 s1 Reachable.start hstep
      | next op2 t t1 _ ht iht => exact Reachable.next op2 t t1 iht ht

/-- The mutex stays held over any operations other than `UnlockOldestFrameData`. -/
theorem run_keeps_lock (c : Settings) (ops : List Op) :
    ∀ s s1 : Receiver, s.mutex_ = true → Op.unlockOldestFrameData ∉ ops →
      run c ops s = some s1 → s1.mutex_ = true ∧ s1.frameQueue_ = s.frameQueue_ := by
  induction ops with
  | nil =>
    intro s s1 hl _ h
    simp only [run, Option.some.injEq] at h
    rw [← h]
    exact ⟨hl, rfl⟩
  | cons op rest ih =>
    intro s s1 hl hno h
    simp only [run] at h
    cases hstep : step c op s with
    | none => simp [hstep] at h
    | some s2 =>
      simp only [hstep] at h
      have hne : op ≠ Op.unlockOldestFrameData := by
        intro he; exact hno (by simp [he])
      obtain ⟨hl2, hq2⟩ := (step_effect c op s s2 hstep).2.2.1 hl hne
      obtain ⟨hl1, hq1⟩ := ih s2 s1 hl2 (fun hmem => hno (List.mem_cons_of_mem _ hmem)) h
      exact ⟨hl1, hq1.trans hq2⟩

theorem dequeues_eq (n : Nat) :
    ∀ s : Receiver, s.mutex_ = false →
      dequeues n s = some { s with frameQueue_ := s.frameQueue_.drop n } := by
  induction n with
  | zero => intro s _; simp [dequeues]
  | succ n ih =>
    intro s hm
    cases hq : s.frameQueue_ with
    | nil =>
      have hstep : DequeueFrame s = some s := by simp [DequeueFrame, hm, hq]
      simp only [dequeues, hstep]
      rw [ih s hm, hq]
      simp
    | cons front rest =>
      have hstep : DequeueFrame s = some { s with frameQueue_ := rest } := by
        simp [DequeueFrame, hm, hq]
      simp only [dequeues, hstep]
      rw [ih { s with frameQueue_ := rest } hm]
      simp

theorem frameArrivals_eq_run (c : Settings) (frames : List IDeckLinkVideoInputFrame) :
    ∀ s : Receiver,
      frameArrivals c frames s
        = run c (frames.map (fun frame => Op.frameArrived (some frame))) s := by
  induction frames with
  | nil => intro s; rfl
  | cons frame rest ih =>
    intro s
    simp only [frameArrivals, List.map_cons, run, step]
    cases VideoInputFrameArrived c (some frame) s with
    | none => rfl
    | some s1 => exact ih s1

/-- The state `exampleSaturated` is reached from `exampleReceiver` by
`8 + 2147483647` frame arrivals. -/
theorem exampleSaturated_reachable :
    Reachable exampleSettings exampleReceiver exampleSaturated := by
  have hfit : ∀ frame ∈ List.replicate 2147483655 (exampleFrame 5),
      frameFits exampleSettings exampleReceiver frame := by
    intro f hf
    rw [List.eq_of_mem_replicate hf]
    decide
  have harr := frameArrivals_eq exampleSettings (List.replicate 2147483655 (exampleFrame 5))
    exampleReceiver rfl (by decide) hfit
    (by
      intro _
      rw [List.length_replicate]
      decide)
  have hstate :
      ({ exampleReceiver with
          frameQueue_ := exampleReceiver.frameQueue_ ++
            (List.take (maxQueueLength_ - exampleReceiver.frameQueue_.length)
              (List.replicate 2147483655 (exampleFrame 5))).map (emplaced exampleSettings)
          dropCount_ := exampleReceiver.dropCount_ +
            (((List.replicate 2147483655 (exampleFrame 5)).length -
              (maxQueueLength_ - exampleReceiver.frameQueue_.length) : Nat) : Int) } : Receiver)
        = exampleSaturated := by
    have h8 : maxQueueLength_ - exampleReceiver.frameQueue_.length = 8 := rfl
    have hq : exampleReceiver.frameQueue_ = [] := rfl
    have hd : exampleReceiver.dropCount_ = 0 := rfl
    have hmin : min 8 2147483655 = 8 := by decide
    have hsub : ((2147483655 - 8 : Nat) : Int) = 2147483647 := by decide
    rw [h8, hq, hd, List.length_replicate, List.take_replicate, hmin, List.map_replicate,
      List.nil_append, hsub, zero_add]
    rfl
  rw [hstate, frameArrivals_eq_run] at harr
  exact Reachable_of_run exampleSettings _ _ _ harr

/-- Claim C2, amended: for every state reachable from an initial receiver state
(empty queue) by any sequence of the operations `VideoInputFrameArrived`,
`DequeueFrame`, `LockOldestFrameData`, `UnlockOldestFrameData`,
`GetOldestTimecode` and `VideoInputFormatChanged` executed one at a time, the
queue length is at most the capacity 8 and the drop counter is not below its
initial value; and while the drop counter is below `INT_MAX` (2147483647), no
operation decreases it, and a frame arriving on a full queue returns with the
counter incremented by one. -/
theorem Reachable_queue_bounded_drops_below_max (c : Settings) (s0 s : Receiver)
    (hq : s0.frameQueue_ = []) (hr : Reachable c s0 s) :
    CountQueuedFrames s ≤ 8
    ∧ CountDroppedFrames s0 ≤ CountDroppedFrames s
    ∧ (CountDroppedFrames s < INT_MAX →
        (∀ (op : Op) (s1 : Receiver), step c op s = some s1 →
          CountDroppedFrames s ≤ CountDroppedFrames s1)
        ∧ (∀ frame : IDeckLinkVideoInputFrame, CountQueuedFrames s = 8 →
          ∃ s1, step c (Op.frameArrived (some frame)) s = some s1
            ∧ CountDroppedFrames s1 = CountDroppedFrames s + 1)) := by
  obtain ⟨hlen, hdrop⟩ := Reachable_invariant c s0 s hq hr
  refine ⟨hlen, hdrop, fun hmax => ⟨fun op s1 h => (step_effect c op s s1 h).1, ?_⟩⟩
  intro frame hfull
  have hge : maxQueueLength_ ≤ s.frameQueue_.length := by
    have h8 : maxQueueLength_ = 8 := rfl
    simp only [CountQueuedFrames] at hfull
    omega
  have hinc : s.dropCount_ + 1 ≤ INT_MAX := by
    simp only [CountDroppedFrames] at hmax
    omega
  refine ⟨{ s with dropCount_ := s.dropCount_ + 1 }, ?_, rfl⟩
  simp only [step]
  rw [VideoInputFrameArrived_drop c s frame hge, if_pos hinc]

theorem Reachable_queue_bounded_drops_below_max_witness :
    exampleReceiver.frameQueue_ = []
    ∧ Reachable exampleSettings exampleReceiver exampleFull
    ∧ CountDroppedFrames exampleFull < INT_MAX
    ∧ CountQueuedFrames exampleFull = 8
    ∧ (CountQueuedFrames exampleFull ≤ 8
      ∧ CountDroppedFrames exampleReceiver ≤ CountDroppedFrames exampleFull
      ∧ (CountDroppedFrames exampleFull < INT_MAX →
          (∀ (op : Op) (s1 : Receiver), step exampleSettings op exampleFull = some s1 →
            CountDroppedFrames exampleFull ≤ CountDroppedFrames s1)
          ∧ (∀ frame : IDeckLinkVideoInputFrame, CountQueuedFrames exampleFull = 8 →
            ∃ s1, step exampleSettings (Op.frameArrived (some frame)) exampleFull = some s1
              ∧ CountDroppedFrames s1 = CountDroppedFrames exampleFull + 1))) :=
  have hr : Reachable exampleSettings exampleReceiver exampleFull :=
    Reachable_of_run exampleSettings
      (List.replicate 9 (Op.frameArrived (some (exampleFrame 5)))) _ _ (by decide)
  ⟨rfl, hr, by decide, by decide,
    Reachable_queue_bounded_drops_below_max exampleSettings exampleReceiver exampleFull rfl hr⟩

/-- The state with a full queue and `dropCount_` at `INT_MAX` is reachable from
a started receiver (by `8 + 2147483647` frame arrivals).  One more arrival
runs `dropCount_++` on an `int` that holds `INT_MAX`: the incremented value is
not a value of `int`, the call has no defined result (compiled code wraps the
counter to `INT_MIN`), and so this operation is not kept from decreasing the
drop counter. -/
theorem drop_counter_overflow_reachable :
    exampleReceiver.frameQueue_ = []
    ∧ Reachable exampleSettings exampleReceiver exampleSaturated
    ∧ CountQueuedFrames exampleSaturated = 8
    ∧ CountDroppedFrames exampleSaturated = INT_MAX
    ∧ step exampleSettings (Op.frameArrived (some (exampleFrame 5))) exampleSaturated = none
    ∧ INT_MAX < CountDroppedFrames exampleSaturated + 1 :=
  ⟨rfl, exampleSaturated_reachable, by decide, by decide, by decide, by decide⟩

/-- Claim C6: for every streaming receiver state (display mode and input
present, mutex available, any queue contents) and every new display mode `m`, after
`VideoInputFormatChanged(_, m, _)` returns, `CountQueuedFrames()` is 0 and
`GetFrameDimensions()` equals (width of `m`, height of `m`); the drop counter
and the pixel format are unchanged. -/
theorem VideoInputFormatChanged_flushes (events flags : Nat) (s : Receiver)
    (old m : IDeckLinkDisplayMode) (input : IDeckLinkInput)
    (hd : s.displayMode_ = some old) (hi : s.input_ = some input)
    (hm : s.mutex_ = false) :
    ∃ s1, VideoInputFormatChanged events (some m) flags s = some s1
      ∧ CountQueuedFrames s1 = 0
      ∧ GetFrameDimensions s1 = some (m.width, m.height)
      ∧ CountDroppedFrames s1 = CountDroppedFrames s
      ∧ s1.pixelFormat_ = s.pixelFormat_ := by
  have h : VideoInputFormatChanged events (some m) flags s =
      some { s with
        displayMode_ := some m
        frameQueue_ := []
        calls := s.calls ++
          [DriverCall.displayModeRelease old, DriverCall.displayModeAddRef m] ++
          [DriverCall.PauseStreams, DriverCall.EnableVideoInput m.displayMode s.pixelFormat_,
           DriverCall.FlushStreams, DriverCall.StartStreams] } := by
    simp [VideoInputFormatChanged, hm, hd, hi, flushQueue_eq_nil]
  exact ⟨_, h, rfl, rfl, rfl, rfl⟩

theorem VideoInputFormatChanged_flushes_witness :
    exampleFull.displayMode_ = some exampleMode ∧ exampleFull.input_ = some exampleInput
    ∧ exampleFull.mutex_ = false
    ∧ ∃ s1, VideoInputFormatChanged 1
          (some exampleHD) 0
          exampleFull = some s1
      ∧ CountQueuedFrames s1 = 0
      ∧ GetFrameDimensions s1 = some
          (exampleHD.width,
           exampleHD.height)
      ∧ CountDroppedFrames s1 = CountDroppedFrames exampleFull
      ∧ s1.pixelFormat_ = exampleFull.pixelFormat_ :=
  ⟨rfl, rfl, rfl,
    VideoInputFormatChanged_flushes 1 0 exampleFull exampleMode
      exampleHD exampleInput
      rfl rfl rfl⟩

/-- Claim C9: for every receiver state whose queue is empty (the mutex being
available to the calls), `DequeueFrame()` leaves the whole state unchanged, and
`GetOldestTimecode()` returns `0xFFFFFFFF` without changing the state. -/
theorem empty_queue_dequeue_and_timecode (s : Receiver) (hq : s.frameQueue_ = [])
    (hm : s.mutex_ = false) :
    DequeueFrame s = some s ∧ GetOldestTimecode s = some (0xffffffff, s) := by
  simp [DequeueFrame, GetOldestTimecode, hq, hm]

theorem empty_queue_dequeue_and_timecode_witness :
    exampleReceiver.frameQueue_ = [] ∧ exampleReceiver.mutex_ = false
    ∧ DequeueFrame exampleReceiver = some exampleReceiver
    ∧ GetOldestTimecode exampleReceiver = some (0xffffffff, exampleReceiver) :=
  ⟨rfl, rfl, empty_queue_dequeue_and_timecode exampleReceiver rfl rfl⟩

theorem GetOldestTimecode_cons (s : Receiver) (front : FrameData) (rest : List FrameData)
    (hm : s.mutex_ = false) (hq : s.frameQueue_ = front :: rest) :
    GetOldestTimecode s = some (front.timecode_, s) := by
  simp [GetOldestTimecode, hm, hq]

theorem LockOldestFrameData_cons (s : Receiver) (front : FrameData) (rest : List FrameData)
    (hm : s.mutex_ = false) (hq : s.frameQueue_ = front :: rest) :
    LockOldestFrameData s = some (some front.image_, { s with mutex_ := true }) := by
  simp [LockOldestFrameData, hm, hq]

/-- Claim C8: for every receiver state whose queue is empty (the mutex being
available to the call), `LockOldestFrameData()` returns null and the mutex is
not held when it returns;
for every state whose queue is non-empty it returns the oldest entry's bytes
and the mutex remains held, over any further operations, until
`UnlockOldestFrameData()` is called, which releases it.  The queue contents and
the drop counter are unchanged in both cases. -/
theorem LockOldestFrameData_scoped_access (c : Settings) (s : Receiver)
    (hm : s.mutex_ = false) :
    (s.frameQueue_ = [] →
      ∃ s1, LockOldestFrameData s = some (none, s1)
        ∧ s1.mutex_ = false
        ∧ s1.frameQueue_ = s.frameQueue_ ∧ s1.dropCount_ = s.dropCount_)
    ∧ (∀ front rest, s.frameQueue_ = front :: rest →
      ∃ s1, LockOldestFrameData s = some (some front.image_, s1)
        ∧ s1.mutex_ = true
        ∧ s1.frameQueue_ = s.frameQueue_ ∧ s1.dropCount_ = s.dropCount_
        ∧ (∀ (ops : List Op) (s2 : Receiver), Op.unlockOldestFrameData ∉ ops →
            run c ops s1 = some s2 → s2.mutex_ = true)
        ∧ ∃ s3, UnlockOldestFrameData s1 = some s3 ∧ s3.mutex_ = false
            ∧ s3.frameQueue_ = s.frameQueue_ ∧ s3.dropCount_ = s.dropCount_) := by
  constructor
  · intro hq
    exact ⟨s, by simp [LockOldestFrameData, hm, hq], hm, rfl, rfl⟩
  · intro front rest hq
    refine ⟨{ s with mutex_ := true }, by simp [LockOldestFrameData, hm, hq],
      rfl, rfl, rfl, ?_, ?_⟩
    · intro ops s2 hno hrun
      exact (run_keeps_lock c ops _ s2 rfl hno hrun).1
    · exact ⟨{ s with mutex_ := false }, by simp [UnlockOldestFrameData], rfl, rfl, rfl⟩

theorem LockOldestFrameData_scoped_access_witness :
    exampleFull.mutex_ = false
    ∧ (exampleFull.frameQueue_ = [] →
      ∃ s1, LockOldestFrameData exampleFull = some (none, s1)
        ∧ s1.mutex_ = false
        ∧ s1.frameQueue_ = exampleFull.frameQueue_ ∧ s1.dropCount_ = exampleFull.dropCount_)
    ∧ (∀ front rest, exampleFull.frameQueue_ = front :: rest →
      ∃ s1, LockOldestFrameData exampleFull = some (some front.image_, s1)
        ∧ s1.mutex_ = true
        ∧ s1.frameQueue_ = exampleFull.frameQueue_ ∧ s1.dropCount_ = exampleFull.dropCount_
        ∧ (∀ (ops : List Op) (s2 : Receiver), Op.unlockOldestFrameData ∉ ops →
            run exampleSettings ops s1 = some s2 → s2.mutex_ = true)
        ∧ ∃ s3, UnlockOldestFrameData s1 = some s3 ∧ s3.mutex_ = false
            ∧ s3.frameQueue_ = exampleFull.frameQueue_
            ∧ s3.dropCount_ = exampleFull.dropCount_) :=
  ⟨rfl, LockOldestFrameData_scoped_access exampleSettings exampleFull rfl⟩

/-- Claim C10: the queue is FIFO in arrival order.  For every sequence of `k`
frames as the driver delivers them (`frameFits`), `1 ≤ k ≤ 8`, arriving into
an empty queue with the mutex free, and every `j < k`, after `j`
calls of `DequeueFrame()`, `GetOldestTimecode()` returns the timecode of frame
`j + 1`, `LockOldestFrameData()` yields a copy of the bytes of frame `j + 1` of
length `rowBytes * height`, and `CountQueuedFrames()` is `k - j`. -/
theorem frameQueue_fifo (c : Settings) (s0 : Receiver) (frames : List IDeckLinkVideoInputFrame)
    (j : Nat) (hq : s0.frameQueue_ = []) (hm : s0.mutex_ = false)
    (hfit : ∀ frame ∈ frames, frameFits c s0 frame)
    (hk : frames.length ≤ 8) (hj : j < frames.length) :
    ∃ s sj, frameArrivals c frames s0 = some s
      ∧ dequeues j s = some sj
      ∧ (∃ s1, GetOldestTimecode sj = some (GetFrameTimecode c frames[j], s1))
      ∧ (∃ s1, LockOldestFrameData sj =
          some (some (frames[j].bytes.take (frames[j].rowBytes * frames[j].height).toNat), s1))
      ∧ (frames[j].bytes.take (frames[j].rowBytes * frames[j].height).toNat).length
          = (frames[j].rowBytes * frames[j].height).toNat
      ∧ CountQueuedFrames sj = frames.length - j := by
  have h8 : maxQueueLength_ = 8 := rfl
  have harr := frameArrivals_eq c frames s0 hm (by simp [hq]) hfit
    (by intro hlt; rw [hq, h8] at hlt; simp only [List.length_nil] at hlt; omega)
  have htake : List.take (maxQueueLength_ - s0.frameQueue_.length) frames = frames := by
    apply List.take_of_length_le
    rw [hq, h8]
    simpa using hk
  rw [htake, hq, List.nil_append] at harr
  have hdeq := dequeues_eq j
    { s0 with
      frameQueue_ := frames.map (emplaced c)
      dropCount_ := s0.dropCount_ +
        ((frames.length - (maxQueueLength_ - ([] : List FrameData).length) : Nat) : Int) } hm
  have hdrop : List.drop j (frames.map (emplaced c))
      = emplaced c frames[j] :: List.drop (j + 1) (frames.map (emplaced c)) := by
    rw [List.drop_eq_getElem_cons (by simpa using hj)]
    simp
  simp only [hdrop] at hdeq
  refine ⟨_, _, harr, hdeq, ?_, ?_, ?_, ?_⟩
  · exact ⟨_, GetOldestTimecode_cons _ (emplaced c frames[j]) _ hm rfl⟩
  · exact ⟨_, LockOldestFrameData_cons _ (emplaced c frames[j]) _ hm rfl⟩
  · have hf := hfit frames[j] (List.getElem_mem _)
    obtain ⟨h0, _, h2, _⟩ := hf
    rw [List.length_take]
    omega
  · simp only [CountQueuedFrames, List.length_cons, List.length_drop, List.length_map]
    omega

theorem frameQueue_fifo_witness :
    exampleReceiver.frameQueue_ = [] ∧ exampleReceiver.mutex_ = false
    ∧ (∀ frame ∈ exampleFrames, frameFits exampleSettings exampleReceiver frame)
    ∧ exampleFrames.length ≤ 8
    ∧ ∃ s sj, frameArrivals exampleSettings exampleFrames exampleReceiver = some s
      ∧ dequeues 1 s = some sj
      ∧ (∃ s1, GetOldestTimecode sj = some (0x02, s1))
      ∧ (∃ s1, LockOldestFrameData sj = some (some [11, 12, 13, 14, 15, 16, 17, 18], s1))
      ∧ ([11, 12, 13, 14, 15, 16, 17, 18] : List UInt8).length = 8
      ∧ CountQueuedFrames sj = 2 :=
  ⟨rfl, rfl, by decide, by decide,
    frameQueue_fifo exampleSettings exampleReceiver exampleFrames 1 rfl rfl (by decide)
      (by decide) (by decide)⟩

/-- The receiver `exampleReceiver` is what `Start` produces from a fresh receiver
on `exampleDriver`. -/
theorem Start_exampleReceiver :
    Start exampleSettings exampleDriver 0 0 BMDPixelFormat.bmdFormat8BitYUV {}
      = some exampleReceiver := by
  decide

end klinker
